import Mathlib

/-!
# Verification of the compliance-rag streaming chat pipeline

Shallow embedding of the client-side RAG chat logic of the repository,
chiefly `src/frontend/src/hooks/use-chat.ts` (the SSE stream consumer,
the non-streaming send path and cancellation), the data model of
`src/frontend/src/types/chat.ts`, the processing-status poller of
`src/frontend/src/hooks/use-documents.ts`, and a spec-modelled chunker
(the backend Chunker is not present in the sources).

Numbers carried opaquely by the data model (`relevance_score`,
`confidence`, ...) are modelled as `Int`: the modelled code never
computes with them, it only stores and forwards them.
-/

namespace ComplianceRag

/-! ## Data model (src/frontend/src/types/chat.ts) -/

/-- `DocumentReference` from `types/chat.ts` (lines 17-24). -/
structure DocumentReference where
  document_id : String
  filename : String
  page_number : Option Nat := none
  chunk_id : Option String := none
  relevance_score : Int
  snippet : Option String := none
deriving DecidableEq, Repr

/-- `MessageMetadata` from `types/chat.ts` (lines 9-15). -/
structure MessageMetadata where
  sources : Option (List DocumentReference) := none
  confidence : Option Int := none
  processing_time : Option Int := none
  model_used : Option String := none
  tokens_used : Option Int := none
deriving DecidableEq, Repr

/-- `Message` from `types/chat.ts` (lines 1-7); `role` is the runtime
string, narrowed by TypeScript to `'user' | 'assistant'`. -/
structure Message where
  id : String
  content : String
  role : String
  timestamp : String
  metadata : Option MessageMetadata := none
deriving DecidableEq, Repr

/-- `ChatSession` from `types/chat.ts` (lines 26-33). -/
structure ChatSession where
  id : String
  title : String
  messages : List Message
  created_at : String
  updated_at : String
  user_id : String
deriving DecidableEq, Repr

/-- `ChatRequest` from `types/chat.ts` (lines 35-40). -/
structure ChatRequest where
  message : String
  session_id : Option String := none
  include_sources : Option Bool := none
  max_sources : Option Nat := none
deriving DecidableEq, Repr

/-- `ChatResponse` from `types/chat.ts` (lines 42-46). -/
structure ChatResponse where
  message : Message
  session_id : String
  sources : Option (List DocumentReference) := none
deriving DecidableEq, Repr

/-- `StreamingChatResponse` from `types/chat.ts` (lines 61-67): one parsed
SSE event. `type` is the runtime string discriminator; TypeScript narrows
it to `'token' | 'sources' | 'done' | 'error'`, but `JSON.parse` can
produce any string, so the embedding keeps `String` and lets the
consumer's `switch` do the narrowing, as the code does. -/
structure StreamingChatResponse where
  type : String
  content : Option String := none
  sources : Option (List DocumentReference) := none
  error : Option String := none
  message_id : Option String := none
deriving DecidableEq, Repr

/-- `DocumentProcessingStatus` from `types/documents` (src/unnamed/part_003):
`status` is the runtime string of `'pending' | 'processing' | 'completed' | 'failed'`. -/
structure DocumentProcessingStatus where
  document_id : String
  status : String
  progress : Option Int := none
  error_message : Option String := none
  updated_at : String
deriving DecidableEq, Repr

/-! ## The streaming loop state (use-chat.ts, lines 200-293)

The loop in `sendStreamingMessage` owns three evolving values:
the React state cells `streamingMessage` (via functional `setState`
updates) and `streamingSources`, and the local variable
`currentMessageId`.  `warnCount` counts `console.warn` calls made by the
`catch` block at line 288-290 (it fires both when `JSON.parse` throws on
a malformed `data:` payload and when the `case 'error'` branch throws,
since that `throw` sits inside the same `try`). -/

structure StreamLoopState where
  streamingMessage : String
  streamingSources : List DocumentReference
  currentMessageId : String
  warnCount : Nat
deriving DecidableEq, Repr

/-- Initial loop state: `setStreamingMessage('')`, `setStreamingSources([])`
(lines 219-220) and `let currentMessageId = ''` (line 252). -/
def initLoopState : StreamLoopState :=
  { streamingMessage := "", streamingSources := [], currentMessageId := "", warnCount := 0 }

/-- The `switch (data.type)` of lines 268-287, applied to one parsed event.
JS truthiness is modelled literally: `if (data.sources)` is true for any
present array (even empty), `if (data.message_id)` is false for a missing
or empty string.  The `case 'error'` branch throws, but the throw is
caught by the `catch` of line 288 (it is inside the same `try`), which
logs a warning and continues -- so the state change of an `error` event
is only the warning counter. -/
def applyEvent (st : StreamLoopState) (d : StreamingChatResponse) : StreamLoopState :=
  if d.type = "token" then
    { st with streamingMessage := st.streamingMessage ++ d.content.getD "" }
  else if d.type = "sources" then
    match d.sources with
    | some s => { st with streamingSources := s }
    | none => st
  else if d.type = "done" then
    match d.message_id with
    | some m => if m = "" then st else { st with currentMessageId := m }
    | none => st
  else if d.type = "error" then
    { st with warnCount := st.warnCount + 1 }
  else
    st

/-- `line.startsWith('data: ')` (line 264), on the character list of the line. -/
def hasDataHeader : List Char → Bool
  | 'd' :: 'a' :: 't' :: 'a' :: ':' :: ' ' :: _ => true
  | _ => false

/-- Processing of one complete line (lines 263-291).  `JSON.parse` is a JS
builtin, modelled as the oracle `parse : List Char → Option StreamingChatResponse`
(`none` models a thrown `SyntaxError`, which the `catch` turns into a
`console.warn` and the loop continues).  `line.slice(6)` is `line.drop 6`. -/
def processLine (parse : List Char → Option StreamingChatResponse)
    (st : StreamLoopState) (line : List Char) : StreamLoopState :=
  if hasDataHeader line then
    match parse (line.drop 6) with
    | none => { st with warnCount := st.warnCount + 1 }
    | some d => applyEvent st d
  else st

/-- Helper for `splitLines`: prepend a non-newline character to the first
complete line if one exists, else to the remainder. -/
def consLine (c : Char) : List (List Char) × List Char → List (List Char) × List Char
  | ([], rem) => ([], c :: rem)
  | (l :: ls, rem) => ((c :: l) :: ls, rem)

/-- `buffer.split('\n')` followed by `buffer = lines.pop() || ''`
(lines 260-261): the complete lines before each newline, and the trailing
incomplete line kept as the new buffer. -/
def splitLines : List Char → List (List Char) × List Char
  | [] => ([], [])
  | c :: cs =>
    if c = '\n' then
      ([] :: (splitLines cs).1, (splitLines cs).2)
    else
      consLine c (splitLines cs)

/-- One iteration of the `while (true)` read loop (lines 255-293) on a
decoded chunk: append the chunk to the carried buffer, split off the
complete lines, process each in order, keep the incomplete remainder. -/
def feedChunk (parse : List Char → Option StreamingChatResponse)
    (p : StreamLoopState × List Char) (chunk : List Char) :
    StreamLoopState × List Char :=
  let buffer := p.2 ++ chunk
  let r := splitLines buffer
  (r.1.foldl (processLine parse) p.1, r.2)

/-- The whole read loop over the sequence of chunks delivered by
`reader.read()`, starting from a fresh state and empty buffer. -/
def runChunks (parse : List Char → Option StreamingChatResponse)
    (chunks : List (List Char)) : StreamLoopState × List Char :=
  chunks.foldl (feedChunk parse) (initLoopState, [])

/-! ## The full `sendStreamingMessage` call (use-chat.ts, lines 208-351)

One invocation of the callback is pure once the external world is fixed.
The crucial JavaScript semantics: inside the invocation, the identifiers
`isStreaming`, `streamingMessage` and `streamingSources` are `const`
bindings of the render that created this `useCallback` closure.
`setStreamingMessage(...)` updates React's store for future renders but
never these bindings, so the persistence block at lines 296-312 reads the
closure-captured values, not the text just assembled by the loop.  The
model makes this explicit by passing the closure values as parameters
(`closureStreamingMessage`, `closureStreamingSources`, `closureIsStreaming`)
distinct from the live loop state. -/

/-- Outcome of the external I/O seen by one invocation: the HTTP response
failed (`!response.ok`, line 241), the stream was aborted part way through
(`AbortError` raised at a `reader.read()` after some chunks, lines 256 and
353-357), or the stream completed, delivering a chunk sequence. -/
inductive FetchOutcome where
  | ok (chunks : List (List Char))
  | httpError (status : Nat)
  | aborted (preChunks : List (List Char))
deriving DecidableEq, Repr

/-- JS string truthiness for `Option String` values such as
`options.sessionId || sessionId` and `data.message_id`: `undefined` and
`''` are falsy. -/
def truthyStr : Option String → Bool
  | none => false
  | some s => s != ""

/-- The user `Message` built at lines 297-302 (`id: user-${Date.now()}`). -/
def mkUserMessage (text nowMs nowIso : String) : Message :=
  { id := "user-" ++ nowMs, content := text, role := "user", timestamp := nowIso }

/-- The assistant `Message` built at lines 304-312.  Its `content` and
`metadata.sources` are the closure-captured `streamingMessage` and
`streamingSources`, exactly as the code reads them. -/
def mkAssistantMessage (mid content nowIso : String)
    (sources : List DocumentReference) : Message :=
  { id := mid, content := content, role := "assistant", timestamp := nowIso,
    metadata := some { sources := some sources } }

/-- Caller-observable result of one `sendStreamingMessage` invocation. -/
structure SendResult where
  /-- the fetch of line 226 was issued (the `isStreaming` guard passed) -/
  requested : Bool
  /-- the session's message list after the cache update of lines 314-321 -/
  messagesAfter : List Message
  /-- the destructive toast of lines 339-343 was shown -/
  errorToastShown : Bool
  /-- last transient loop state reached before the `finally` cleanup -/
  assembled : StreamLoopState
  /-- React state `streamingMessage` after the call returns -/
  streamingMessageAfter : String
  /-- React state `streamingSources` after the call returns -/
  streamingSourcesAfter : List DocumentReference
deriving DecidableEq, Repr

/-- One invocation of `sendStreamingMessage` (lines 208-351).
`finalSessionId` is the evaluated `options.sessionId || sessionId`
(line 253), `sessionMessages` the session's message list held in the
query cache.  The `finally` block (lines 345-350) resets the streaming
state on every path that entered the `try`; the guard path (line 216)
returns before touching anything. -/
def sendStreamingMessageModel
    (parse : List Char → Option StreamingChatResponse)
    (closureIsStreaming : Bool)
    (closureStreamingMessage : String)
    (closureStreamingSources : List DocumentReference)
    (finalSessionId : Option String)
    (userText nowMs nowIso : String)
    (outcome : FetchOutcome)
    (sessionMessages : List Message) : SendResult :=
  if closureIsStreaming then
    -- line 216: `if (isStreaming) return` -- nothing happens, no error
    { requested := false
      messagesAfter := sessionMessages
      errorToastShown := false
      assembled := { streamingMessage := closureStreamingMessage,
                     streamingSources := closureStreamingSources,
                     currentMessageId := "", warnCount := 0 }
      streamingMessageAfter := closureStreamingMessage
      streamingSourcesAfter := closureStreamingSources }
  else
    match outcome with
    | .httpError _ =>
      -- line 242 throws; outer catch (line 337): not an AbortError, toast shown
      { requested := true, messagesAfter := sessionMessages, errorToastShown := true
        assembled := initLoopState
        streamingMessageAfter := "", streamingSourcesAfter := [] }
    | .aborted preChunks =>
      -- `reader.read()` raised AbortError after `preChunks`; the catch at
      -- line 338 sees `error.name === 'AbortError'` and shows no toast;
      -- the persistence block of lines 295-335 is never reached
      { requested := true, messagesAfter := sessionMessages, errorToastShown := false
        assembled := (runChunks parse preChunks).1
        streamingMessageAfter := "", streamingSourcesAfter := [] }
    | .ok chunks =>
      let st := (runChunks parse chunks).1
      -- line 296: `if (finalSessionId && currentMessageId && streamingMessage)`
      -- `streamingMessage` here is the closure value, not the loop state
      if truthyStr finalSessionId && (st.currentMessageId != "")
          && (closureStreamingMessage != "") then
        { requested := true
          messagesAfter := sessionMessages ++
            [mkUserMessage userText nowMs nowIso,
             mkAssistantMessage st.currentMessageId closureStreamingMessage nowIso
               closureStreamingSources]
          errorToastShown := false
          assembled := st
          streamingMessageAfter := "", streamingSourcesAfter := [] }
      else
        { requested := true, messagesAfter := sessionMessages, errorToastShown := false
          assembled := st
          streamingMessageAfter := "", streamingSourcesAfter := [] }

/-! ## Non-streaming send (use-chat.ts, lines 146-197) -/

/-- The `onSuccess` cache updater of `useSendMessage` (lines 158-174):
append the locally-built user message and the server's assistant message
to the cached session. -/
def sendMessageOnSuccessUpdate (response : ChatResponse) (request : ChatRequest)
    (nowMs nowIso : String) (old : ChatSession) : ChatSession :=
  { old with
    messages := old.messages ++
      [mkUserMessage request.message nowMs nowIso, response.message]
    updated_at := nowIso }

/-! ## Document processing-status poller (use-documents.ts, lines 193-209) -/

/-- The `refetchInterval` policy of `useDocumentProcessingStatus`
(lines 200-206): `none` models returning `false` (stop polling), `some n`
a poll every `n` milliseconds.  `data` is the latest fetched status, or
`none` before the first response. -/
def documentStatusRefetchInterval (data : Option DocumentProcessingStatus) :
    Option Nat :=
  match data with
  | some d => if d.status = "completed" || d.status = "failed" then none else some 2000
  | none => some 2000

/-! ## Chunker (spec-modelled)

Modelled from the spec: the backend Chunker component (spec sections 4.1
and 8) is not present under `src/` -- only the frontend and
deployment/docs are.  The model follows the spec's boundary policy
literally: chunks start at multiples of `chunk_size - overlap`, each
spans `chunk_size` characters (clamped to the text length), and the
sequence stops with the chunk that reaches the end of the text, so
that `chunk_size=1000, overlap=200, len=2500` yields spans
`[0,1000), [800,1800), [1600,2500)`. -/

/-- Span generator: emit `[start, min (start+size) len)`; stop when the
chunk reaches the end of the text, else advance by `size - overlap`.
`fuel` only bounds the recursion; `len + 1` steps always suffice when
`overlap < size`. -/
def chunkSpansAux (size overlap len : Nat) : Nat → Nat → List (Nat × Nat)
  | 0, _ => []
  | fuel + 1, start =>
    if len ≤ start + size then
      [(start, len)]
    else
      (start, start + size) :: chunkSpansAux size overlap len fuel (start + size - overlap)

/-- Modelled from the spec: `chunk(text, chunk_size, overlap)` character
offset spans (spec section 4.1, scenario in section 8). -/
def chunkSpans (size overlap len : Nat) : List (Nat × Nat) :=
  chunkSpansAux size overlap len (len + 1) 0

/-! ## Concrete fixtures for the spec scenarios

`JSON.parse` is external; the fixtures encode each event of the spec's
scenarios under a short payload recognised by a concrete parse oracle. -/

/-- The source reference `doc A` of the spec's streaming scenario. -/
def docA : DocumentReference :=
  { document_id := "docA", filename := "gdpr.pdf", relevance_score := 1 }

/-- Event `token("The")`. -/
def evTokenThe : StreamingChatResponse := { type := "token", content := some "The" }

/-- Event `token(" GDPR")`. -/
def evTokenGdpr : StreamingChatResponse := { type := "token", content := some " GDPR" }

/-- Event `sources([doc A])`. -/
def evSourcesDocA : StreamingChatResponse := { type := "sources", sources := some [docA] }

/-- Event `done(msg_1)`. -/
def evDoneMsg1 : StreamingChatResponse := { type := "done", message_id := some "msg_1" }

/-- Event `error("boom")`. -/
def evErrorBoom : StreamingChatResponse := { type := "error", error := some "boom" }

/-- Concrete parse oracle mapping the fixture payloads to their events;
everything else is invalid JSON (`none`). -/
def scenarioParse (s : List Char) : Option StreamingChatResponse :=
  if s = "t1".toList then some evTokenThe
  else if s = "t2".toList then some evTokenGdpr
  else if s = "s1".toList then some evSourcesDocA
  else if s = "d1".toList then some evDoneMsg1
  else if s = "e1".toList then some evErrorBoom
  else none

/-- The SSE text of the spec scenario
`token("The"), token(" GDPR"), sources([doc A]), done(msg_1)`. -/
def scenarioStream : List Char :=
  "data: t1\ndata: t2\ndata: s1\ndata: d1\n".toList

/-- An SSE text whose first event is terminal `error`, followed by a token. -/
def errorThenTokenStream : List Char :=
  "data: e1\ndata: t1\n".toList

/-! ## Claims -/

/-- Claim C1: folding `token("The"), token(" GDPR"), sources([doc A]),
done(msg_1)` through the consumer does assemble the transient state
`text = "The GDPR"`, one source, id `msg_1` -- but the code persists
nothing.  The persistence guard at line 296 and the assistant content at
line 306 read the closure-captured `streamingMessage` binding, which is
`""` for every invocation that passes the `isStreaming` guard (renders
with a non-empty `streamingMessage` all have `isStreaming = true`, and
the `finally` block resets the state before `isStreaming` turns false),
so `currentMessageId && streamingMessage` is falsy and the session's
message list is left unchanged: the assembled message is never stored. -/
theorem claim_c1_done_scenario_not_persisted :
    (runChunks scenarioParse [scenarioStream]).1.streamingMessage = "The GDPR" ∧
    (runChunks scenarioParse [scenarioStream]).1.streamingSources = [docA] ∧
    (runChunks scenarioParse [scenarioStream]).1.currentMessageId = "msg_1" ∧
    (sendStreamingMessageModel scenarioParse false "" [] (some "sess")
      "What is the GDPR" "17" "t17" (.ok [scenarioStream]) []).messagesAfter = [] := by
  decide

/-- Claim C2: cancelling an in-flight stream (an `AbortError` raised at a
`reader.read()` after any number of chunks) leaves the session's message
log unchanged, adds neither a user nor an assistant message, shows no
error toast, and the partial streamed text is discarded (the React state
is reset to `""` by the `finally` block), never stored. -/
theorem claim_c2_cancel_preserves_message_log
    (parse : List Char → Option StreamingChatResponse)
    (cm : String) (cs : List DocumentReference) (sid : Option String)
    (userText nowMs nowIso : String) (preChunks : List (List Char))
    (msgs : List Message) :
    (sendStreamingMessageModel parse false cm cs sid userText nowMs nowIso
      (.aborted preChunks) msgs).messagesAfter = msgs ∧
    (sendStreamingMessageModel parse false cm cs sid userText nowMs nowIso
      (.aborted preChunks) msgs).errorToastShown = false ∧
    (sendStreamingMessageModel parse false cm cs sid userText nowMs nowIso
      (.aborted preChunks) msgs).streamingMessageAfter = "" := by
  simp [sendStreamingMessageModel]

/-- Claim C3 counterexample: a second send on a session with an active
stream (`isStreaming = true`) is dropped silently -- the guard at
line 216 is a bare `return`: no fetch is issued, but also no
`ConcurrentStreamConflict` (nor any other error) is surfaced to the
caller, contradicting the claim's "surfaced ... as a
ConcurrentStreamConflict error (not silently dropped)". -/
theorem claim_c3_counterexample :
    (sendStreamingMessageModel scenarioParse true "" [] (some "sess")
      "second question" "18" "t18" (.ok [scenarioStream]) []).requested = false ∧
    (sendStreamingMessageModel scenarioParse true "" [] (some "sess")
      "second question" "18" "t18" (.ok [scenarioStream]) []).errorToastShown = false := by
  decide

/-- Claim C3 (amended): a second send-message call on a session with an
active stream returns immediately before any request is issued -- no
token of the second request is produced, no message is added and the
stream state is untouched -- but the rejection is silent: no error of any
kind is surfaced to the caller. -/
theorem claim_c3_second_send_rejected_silently
    (parse : List Char → Option StreamingChatResponse)
    (cm : String) (cs : List DocumentReference) (sid : Option String)
    (userText nowMs nowIso : String) (outcome : FetchOutcome)
    (msgs : List Message) :
    (sendStreamingMessageModel parse true cm cs sid userText nowMs nowIso
      outcome msgs).requested = false ∧
    (sendStreamingMessageModel parse true cm cs sid userText nowMs nowIso
      outcome msgs).messagesAfter = msgs ∧
    (sendStreamingMessageModel parse true cm cs sid userText nowMs nowIso
      outcome msgs).errorToastShown = false := by
  simp [sendStreamingMessageModel]

/-- Claim C4: an `error` stream event is not terminal in the code.  The
`throw` of `case 'error'` (line 286) sits inside the `try` whose `catch`
(line 288) only logs a console warning, so on the stream
`error("boom"), token("The")` the consumer keeps going: the token after
the error is still appended to the assembled buffer (`"The"`), the error
is swallowed as one warning, and no error toast (the caller-visible
marker of the outer catch, lines 339-343) is ever shown.  No assistant
message is persisted -- but that holds for every stream (claim C1). -/
theorem claim_c4_error_event_not_terminal :
    (runChunks scenarioParse [errorThenTokenStream]).1.streamingMessage = "The" ∧
    (runChunks scenarioParse [errorThenTokenStream]).1.warnCount = 1 ∧
    (sendStreamingMessageModel scenarioParse false "" [] (some "sess")
      "q" "19" "t19" (.ok [errorThenTokenStream]) []).errorToastShown = false ∧
    (sendStreamingMessageModel scenarioParse false "" [] (some "sess")
      "q" "19" "t19" (.ok [errorThenTokenStream]) []).messagesAfter = [] := by
  decide

/-- Claim C5: the consumer recognizes events only in the `data: <json>`
line framing.  Whenever processing a line changes the assembled answer
state (text, source list or message id), the line starts with `data: `,
its remainder parsed to an event whose `type` discriminator is one of
the recognized values, and the state change is exactly the one of that
event kind's payload: a `token` appends its text content, a `sources`
event installs its source-reference list, a `done` event records its
message identifier.  (An `error` event carries its failure reason but --
see claim C4 -- never alters the assembled state.) -/
theorem claim_c5_sse_framing
    (parse : List Char → Option StreamingChatResponse)
    (st : StreamLoopState) (line : List Char)
    (h : (processLine parse st line).streamingMessage ≠ st.streamingMessage ∨
         (processLine parse st line).streamingSources ≠ st.streamingSources ∨
         (processLine parse st line).currentMessageId ≠ st.currentMessageId) :
    hasDataHeader line = true ∧
    ∃ d, parse (line.drop 6) = some d ∧
      ((d.type = "token" ∧ processLine parse st line =
          { st with streamingMessage := st.streamingMessage ++ d.content.getD "" }) ∨
       (d.type = "sources" ∧ ∃ s, d.sources = some s ∧
          processLine parse st line = { st with streamingSources := s }) ∨
       (d.type = "done" ∧ ∃ m, d.message_id = some m ∧ m ≠ "" ∧
          processLine parse st line = { st with currentMessageId := m })) := by
  by_cases hh : hasDataHeader line = true
  · cases hp : parse (line.drop 6) with
    | none => simp [processLine, hh, hp] at h
    | some d =>
      have hpl : processLine parse st line = applyEvent st d := by
        simp [processLine, hh, hp]
      rw [hpl] at h ⊢
      refine ⟨hh, d, rfl, ?_⟩
      by_cases ht : d.type = "token"
      · exact Or.inl ⟨ht, by simp [applyEvent, ht]⟩
      by_cases hs : d.type = "sources"
      · cases hsrc : d.sources with
        | none => simp [applyEvent, ht, hs, hsrc] at h
        | some s => exact Or.inr (Or.inl ⟨hs, s, rfl, by simp [applyEvent, ht, hs, hsrc]⟩)
      by_cases hd : d.type = "done"
      · cases hm : d.message_id with
        | none => simp [applyEvent, ht, hs, hd, hm] at h
        | some m =>
          by_cases hm0 : m = ""
          · simp [applyEvent, ht, hs, hd, hm, hm0] at h
          · exact Or.inr (Or.inr ⟨hd, m, rfl, hm0, by simp [applyEvent, ht, hs, hd, hm, hm0]⟩)
      by_cases he : d.type = "error"
      · simp [applyEvent, ht, hs, hd, he] at h
      · simp [applyEvent, ht, hs, hd, he] at h
  · simp [processLine, hh] at h

/-- Witness for claim C5 at the concrete line `data: t1`. -/
theorem claim_c5_sse_framing_witness :
    hasDataHeader ("data: t1".toList) = true ∧
    ∃ d, scenarioParse (("data: t1".toList).drop 6) = some d ∧
      ((d.type = "token" ∧ processLine scenarioParse initLoopState ("data: t1".toList) =
          { initLoopState with streamingMessage :=
              initLoopState.streamingMessage ++ d.content.getD "" }) ∨
       (d.type = "sources" ∧ ∃ s, d.sources = some s ∧
          processLine scenarioParse initLoopState ("data: t1".toList) =
            { initLoopState with streamingSources := s }) ∨
       (d.type = "done" ∧ ∃ m, d.message_id = some m ∧ m ≠ "" ∧
          processLine scenarioParse initLoopState ("data: t1".toList) =
            { initLoopState with currentMessageId := m })) :=
  claim_c5_sse_framing scenarioParse initLoopState ("data: t1".toList) (by decide)

/-- Claim C7: a successful non-streaming send appends exactly two messages
to the cached session -- the locally built user message followed by the
server's assistant message -- and every pre-existing message is untouched
(stable prefix), so history is append-only. -/
theorem claim_c7_send_appends_two
    (response : ChatResponse) (request : ChatRequest) (nowMs nowIso : String)
    (old : ChatSession) :
    (sendMessageOnSuccessUpdate response request nowMs nowIso old).messages =
      old.messages ++ [mkUserMessage request.message nowMs nowIso, response.message] ∧
    (mkUserMessage request.message nowMs nowIso).role = "user" ∧
    (mkUserMessage request.message nowMs nowIso).content = request.message ∧
    (sendMessageOnSuccessUpdate response request nowMs nowIso old).messages.length =
      old.messages.length + 2 ∧
    (sendMessageOnSuccessUpdate response request nowMs nowIso old).messages.take
      old.messages.length = old.messages := by
  refine ⟨rfl, rfl, rfl, by simp [sendMessageOnSuccessUpdate], ?_⟩
  simp [sendMessageOnSuccessUpdate, List.take_left]

/-- Claim C8: the processing-status poller re-queries every 2000 ms while
the last status is `pending` or `processing`, and returns the stop value
(no further poll) once the status is `completed` or `failed`. -/
theorem claim_c8_poll_interval (d : DocumentProcessingStatus) :
    ((d.status = "pending" ∨ d.status = "processing") →
      documentStatusRefetchInterval (some d) = some 2000) ∧
    ((d.status = "completed" ∨ d.status = "failed") →
      documentStatusRefetchInterval (some d) = none) := by
  constructor
  · rintro (h | h) <;> simp [documentStatusRefetchInterval, h]
  · rintro (h | h) <;> simp [documentStatusRefetchInterval, h]

/-- Witness for claim C8 on a processing and a completed status. -/
theorem claim_c8_poll_interval_witness :
    documentStatusRefetchInterval
      (some { document_id := "doc1", status := "processing", updated_at := "t1" }) =
      some 2000 ∧
    documentStatusRefetchInterval
      (some { document_id := "doc1", status := "completed", updated_at := "t2" }) =
      none :=
  ⟨(claim_c8_poll_interval _).1 (Or.inr rfl), (claim_c8_poll_interval _).2 (Or.inl rfl)⟩

/-! ## Chunk-boundary invariance of the line parser (claim C9)

The key algebraic fact: splitting a buffer into complete lines commutes
with concatenation -- the complete lines of `a ++ b` are the complete
lines of `a` followed by the complete lines of `remainder-of-a ++ b`. -/

/-- `splitLines` distributes over append through the carried remainder. -/
lemma splitLines_append (a b : List Char) :
    splitLines (a ++ b) =
      ((splitLines a).1 ++ (splitLines ((splitLines a).2 ++ b)).1,
       (splitLines ((splitLines a).2 ++ b)).2) := by
  induction a with
  | nil => simp [splitLines]
  | cons c a ih =>
    by_cases hc : c = '\n'
    · subst hc
      simp [splitLines, ih]
    · simp only [List.cons_append, splitLines, hc, if_false, List.append_eq]
      rw [ih]
      rcases hA : splitLines a with ⟨A1, A2⟩
      cases A1 with
      | nil =>
        simp only [consLine, List.nil_append, List.cons_append, splitLines, hc, if_false]
        rcases hX : splitLines (A2 ++ b) with ⟨X1, X2⟩
        cases X1 <;> simp [consLine]
      | cons l ls =>
        simp [consLine]

/-- Feeding two chunks in sequence equals feeding their concatenation:
the carried buffer makes the read loop a monoid morphism on chunk text. -/
lemma feedChunk_feedChunk (parse : List Char → Option StreamingChatResponse)
    (p : StreamLoopState × List Char) (a b : List Char) :
    feedChunk parse (feedChunk parse p a) b = feedChunk parse p (a ++ b) := by
  obtain ⟨st, buf⟩ := p
  simp only [feedChunk]
  rw [← List.append_assoc, splitLines_append (buf ++ a) b]
  simp [List.foldl_append]

/-- Folding the read loop over any chunk list equals one feed of the
flattened text, for any starting point reached by a first feed. -/
lemma foldl_feedChunk_flatten (parse : List Char → Option StreamingChatResponse) :
    ∀ (cs : List (List Char)) (a : List Char) (p : StreamLoopState × List Char),
      List.foldl (feedChunk parse) (feedChunk parse p a) cs =
        feedChunk parse p (a ++ cs.flatten) := by
  intro cs
  induction cs with
  | nil => intro a p; simp
  | cons c cs ih =>
    intro a p
    simp only [List.foldl_cons, List.flatten_cons]
    rw [feedChunk_feedChunk, ih, List.append_assoc]

/-- The whole read loop depends only on the concatenated stream text. -/
lemma runChunks_eq_single (parse : List Char → Option StreamingChatResponse)
    (chunks : List (List Char)) :
    runChunks parse chunks = runChunks parse [chunks.flatten] := by
  cases chunks with
  | nil => simp [runChunks, feedChunk, splitLines]
  | cons c cs =>
    simp only [runChunks, List.foldl_cons, List.foldl_nil, List.flatten_cons]
    rw [foldl_feedChunk_flatten]

/-- If `splitLines` found no complete line, the remainder is the whole input. -/
lemma splitLines_fst_eq_nil :
    ∀ x : List Char, (splitLines x).1 = [] → (splitLines x).2 = x := by
  intro x
  induction x with
  | nil => simp [splitLines]
  | cons c cs ih =>
    by_cases hc : c = '\n'
    · subst hc; simp [splitLines]
    · simp only [splitLines, hc, if_false]
      rcases hA : splitLines cs with ⟨A1, A2⟩
      cases A1 with
      | nil =>
        intro _
        have h2 : A2 = cs := by
          have := ih (by rw [hA])
          rw [hA] at this
          exact this
        simp [consLine, h2]
      | cons l ls => simp [consLine]

/-- Text ending in a newline leaves an empty remainder after splitting. -/
lemma splitLines_trailing : ∀ t : List Char, (splitLines (t ++ ['\n'])).2 = [] := by
  intro t
  induction t with
  | nil => simp [splitLines]
  | cons c t ih =>
    by_cases hc : c = '\n'
    · subst hc; simp [splitLines, ih]
    · simp only [List.cons_append, splitLines, hc, if_false]
      rcases hA : splitLines (t ++ ['\n']) with ⟨A1, A2⟩
      have hA2 : A2 = [] := by rw [hA] at ih; exact ih
      subst hA2
      cases A1 with
      | nil =>
        exfalso
        have hnil := splitLines_fst_eq_nil (t ++ ['\n']) (by rw [hA])
        rw [hA] at hnil
        simp at hnil
      | cons l ls => simp [consLine]

/-- Claim C9: the stream consumer's line parser is invariant to chunk
boundaries.  For every event text ending in a newline and every way of
splitting it into read chunks, incremental processing with the carried
buffer yields exactly the state (assembled text, sources, message id,
warnings) of processing the whole text as a single chunk, and the final
buffer is empty: every line was processed. -/
theorem claim_c9_chunk_boundary_invariance
    (parse : List Char → Option StreamingChatResponse)
    (chunks : List (List Char)) (s t : List Char)
    (h1 : chunks.flatten = s) (h2 : s = t ++ ['\n']) :
    runChunks parse chunks = runChunks parse [s] ∧
    (runChunks parse chunks).2 = [] := by
  have hsingle : runChunks parse chunks = runChunks parse [s] := by
    rw [← h1]
    exact runChunks_eq_single parse chunks
  refine ⟨hsingle, ?_⟩
  rw [hsingle]
  simp only [runChunks, List.foldl_cons, List.foldl_nil, feedChunk, List.nil_append]
  rw [h2]
  exact splitLines_trailing t

/-- Witness for claim C9: the scenario stream cut into three ragged chunks
(boundaries inside lines) processes exactly like the single-chunk stream. -/
theorem claim_c9_chunk_boundary_invariance_witness :
    runChunks scenarioParse
      ["data: t1\nda".toList, "ta: t2\ndata: s1\ndat".toList, "a: d1\n".toList] =
      runChunks scenarioParse [scenarioStream] ∧
    (runChunks scenarioParse
      ["data: t1\nda".toList, "ta: t2\ndata: s1\ndat".toList, "a: d1\n".toList]).2 = [] :=
  claim_c9_chunk_boundary_invariance scenarioParse
    ["data: t1\nda".toList, "ta: t2\ndata: s1\ndat".toList, "a: d1\n".toList]
    scenarioStream ("data: t1\ndata: t2\ndata: s1\ndata: d1".toList)
    (by decide) (by decide)

/-! ## Chunker span lemmas (claim C6) -/

/-- The span list always starts with `(start, min (start+size) len)`. -/
lemma chunkSpansAux_head (size overlap len fuel start : Nat) (h : 0 < fuel) :
    ∃ rest, chunkSpansAux size overlap len fuel start =
      (start, min (start + size) len) :: rest := by
  cases fuel with
  | zero => omega
  | succ f =>
    simp only [chunkSpansAux]
    by_cases hle : len ≤ start + size
    · exact ⟨[], by simp [hle, Nat.min_eq_right hle]⟩
    · refine ⟨chunkSpansAux size overlap len f (start + size - overlap), ?_⟩
      simp [hle, Nat.min_eq_left (by omega : start + size ≤ len)]

/-- With enough fuel, the final span always ends at the text length. -/
lemma chunkSpansAux_last (size overlap len : Nat) (hov : overlap < size) :
    ∀ fuel start, len - start < fuel →
      ((chunkSpansAux size overlap len fuel start).getLast?).map Prod.snd = some len := by
  intro fuel
  induction fuel with
  | zero => intro start h; omega
  | succ f ih =>
    intro start h
    simp only [chunkSpansAux]
    by_cases hle : len ≤ start + size
    · simp [hle]
    · simp only [hle, if_false]
      have hf : len - (start + size - overlap) < f := by omega
      obtain ⟨rest, hr⟩ :=
        chunkSpansAux_head size overlap len f (start + size - overlap) (by omega)
      rw [hr, List.getLast?_cons_cons, ← hr]
      exact ih (start + size - overlap) hf

/-- Every non-final span is full-sized and the next span starts exactly
`overlap` characters before its end. -/
lemma chunkSpansAux_chain (size overlap len : Nat) (hov : overlap < size) :
    ∀ fuel start, len - start < fuel →
      List.Chain' (fun a b : Nat × Nat => a.2 = a.1 + size ∧ b.1 + overlap = a.2)
        (chunkSpansAux size overlap len fuel start) := by
  intro fuel
  induction fuel with
  | zero => intro start h; omega
  | succ f ih =>
    intro start h
    simp only [chunkSpansAux]
    by_cases hle : len ≤ start + size
    · simp [hle]
    · simp only [hle, if_false]
      have hf : len - (start + size - overlap) < f := by omega
      refine List.chain'_cons'.mpr ⟨?_, ih (start + size - overlap) hf⟩
      intro y hy
      obtain ⟨rest, hr⟩ :=
        chunkSpansAux_head size overlap len f (start + size - overlap) (by omega)
      rw [hr] at hy
      simp only [List.head?_cons, Option.mem_def, Option.some_inj] at hy
      subst hy
      exact ⟨rfl, by omega⟩

/-- Claim C6: with `chunk_size = 1000`, `overlap = 200`, a 2500-character
document yields exactly the three spans `[0,1000), [800,1800), [1600,2500)`;
and in general, for every valid configuration (`overlap < chunk_size`) the
spans start at offset 0, end at the text length, every non-final span is
exactly `chunk_size` long, and each successive span starts exactly
`overlap` characters before the previous span ends -- so the spans cover
the text with no gaps and consecutive chunks share exactly the configured
overlap, except possibly the (shorter) final chunk. -/
theorem claim_c6_chunk_spans :
    chunkSpans 1000 200 2500 = [(0, 1000), (800, 1800), (1600, 2500)] ∧
    ∀ size overlap len : Nat, overlap < size →
      chunkSpans size overlap len ≠ [] ∧
      (chunkSpans size overlap len).head? = some (0, min size len) ∧
      ((chunkSpans size overlap len).getLast?).map Prod.snd = some len ∧
      List.Chain' (fun a b : Nat × Nat => a.2 = a.1 + size ∧ b.1 + overlap = a.2)
        (chunkSpans size overlap len) := by
  constructor
  · decide
  · intro size overlap len hov
    have h0 : len - 0 < len + 1 := by omega
    obtain ⟨rest, hr⟩ := chunkSpansAux_head size overlap len (len + 1) 0 (by omega)
    refine ⟨?_, ?_, chunkSpansAux_last size overlap len hov (len + 1) 0 h0,
      chunkSpansAux_chain size overlap len hov (len + 1) 0 h0⟩
    · simp only [chunkSpans]
      rw [hr]
      simp
    · simp only [chunkSpans]
      rw [hr]
      simp

/-- Witness for claim C6's general part at the spec configuration. -/
theorem claim_c6_chunk_spans_witness :
    chunkSpans 1000 200 2500 ≠ [] ∧
    (chunkSpans 1000 200 2500).head? = some (0, min 1000 2500) ∧
    ((chunkSpans 1000 200 2500).getLast?).map Prod.snd = some 2500 ∧
    List.Chain' (fun a b : Nat × Nat => a.2 = a.1 + 1000 ∧ b.1 + 200 = a.2)
      (chunkSpans 1000 200 2500) :=
  claim_c6_chunk_spans.2 1000 200 2500 (by decide)

/-- Claim C10: a `data: ` line whose remainder is not valid JSON
(`JSON.parse` throws, modelled by the oracle returning `none`) leaves the
assembled answer text, the collected sources and the recorded message id
unchanged -- the only effect is one console warning -- and the fold over
the remaining lines continues from that state. -/
theorem claim_c10_malformed_line_skipped
    (parse : List Char → Option StreamingChatResponse)
    (st : StreamLoopState) (line : List Char) (rest : List (List Char))
    (h1 : hasDataHeader line = true)
    (h2 : parse (line.drop 6) = none) :
    (processLine parse st line).streamingMessage = st.streamingMessage ∧
    (processLine parse st line).streamingSources = st.streamingSources ∧
    (processLine parse st line).currentMessageId = st.currentMessageId ∧
    (processLine parse st line).warnCount = st.warnCount + 1 ∧
    List.foldl (processLine parse) st (line :: rest) =
      List.foldl (processLine parse) (processLine parse st line) rest := by
  refine ⟨?_, ?_, ?_, ?_, rfl⟩ <;> simp [processLine, h1, h2]

/-- Witness for claim C10 at the malformed line `data: zz`. -/
theorem claim_c10_malformed_line_skipped_witness :
    (processLine scenarioParse initLoopState ("data: zz".toList)).streamingMessage =
      initLoopState.streamingMessage ∧
    (processLine scenarioParse initLoopState ("data: zz".toList)).streamingSources =
      initLoopState.streamingSources ∧
    (processLine scenarioParse initLoopState ("data: zz".toList)).currentMessageId =
      initLoopState.currentMessageId ∧
    (processLine scenarioParse initLoopState ("data: zz".toList)).warnCount =
      initLoopState.warnCount + 1 ∧
    List.foldl (processLine scenarioParse) initLoopState ("data: zz".toList :: []) =
      List.foldl (processLine scenarioParse)
        (processLine scenarioParse initLoopState ("data: zz".toList)) [] :=
  claim_c10_malformed_line_skipped scenarioParse initLoopState
    ("data: zz".toList) [] (by decide) (by decide)

end ComplianceRag
